import Mathlib

/-
Verification of the pys3server protocol core: SigV4 authentication,
the multipart upload token codec, the streaming write path with ETag
digests, and the request router (`server.py`, `signature_v4.py`,
`base_interface.py`).  Byte strings are modelled as `List Nat`
(each element an octet).
-/

set_option maxRecDepth 100000

abbrev Bytes := List Nat

/-- ASCII encoding of a Lean string literal into model bytes. -/
def str2b (s : String) : Bytes := s.data.map Char.toNat

/-- Truncate to a 32-bit word, as Python's integers are masked in the model. -/
def h32 (x : Nat) : Nat := x % 4294967296

/-- 32-bit right rotation. -/
def rotr32 (n x : Nat) : Nat := h32 ((x >>> n) ||| (x <<< (32 - n)))

def sig0 (x : Nat) : Nat := (rotr32 7 x) ^^^ (rotr32 18 x) ^^^ (x >>> 3)

def sig1 (x : Nat) : Nat := (rotr32 17 x) ^^^ (rotr32 19 x) ^^^ (x >>> 10)

def bsig0 (x : Nat) : Nat := (rotr32 2 x) ^^^ (rotr32 13 x) ^^^ (rotr32 22 x)

def bsig1 (x : Nat) : Nat := (rotr32 6 x) ^^^ (rotr32 11 x) ^^^ (rotr32 25 x)

/-- The SHA-256 working state: eight 32-bit words. -/
structure Sha2State where
  a : Nat
  b : Nat
  c : Nat
  d : Nat
  e : Nat
  f : Nat
  g : Nat
  h : Nat
deriving Repr, DecidableEq

def sha256K : List Nat := [
  1116352408, 1899447441, 3049323471, 3921009573, 961987163, 1508970993,
  2453635748, 2870763221, 3624381080, 310598401, 607225278, 1426881987,
  1925078388, 2162078206, 2614888103, 3248222580, 3835390401, 4022224774,
  264347078, 604807628, 770255983, 1249150122, 1555081692, 1996064986,
  2554220882, 2821834349, 2952996808, 3210313671, 3336571891, 3584528711,
  113926993, 338241895, 666307205, 773529912, 1294757372, 1396182291,
  1695183700, 1986661051, 2177026350, 2456956037, 2730485921, 2820302411,
  3259730800, 3345764771, 3516065817, 3600352804, 4094571909, 275423344,
  430227734, 506948616, 659060556, 883997877, 958139571, 1322822218,
  1537002063, 1747873779, 1955562222, 2024104815, 2227730452, 2361852424,
  2428436474, 2756734187, 3204031479, 3329325298]

def sha256init : Sha2State :=
  ⟨1779033703, 3144134277, 1013904242, 2773480762, 1359893119, 2600822924, 528734635, 1541459225⟩

/-- Big-endian packing of bytes into 32-bit words. -/
def bytesToWords : List Nat → List Nat
  | a :: b :: c :: d :: rest => ((a <<< 24) ||| (b <<< 16) ||| (c <<< 8) ||| d) :: bytesToWords rest
  | _ => []

/-- Extend the 16-word message schedule by `k` further words. -/
def extendW (w : List Nat) : Nat → List Nat
  | 0 => w
  | k+1 =>
    extendW (w ++ [h32 (sig1 (w.getD (w.length - 2) 0) + w.getD (w.length - 7) 0 +
      sig0 (w.getD (w.length - 15) 0) + w.getD (w.length - 16) 0)]) k

/-- One SHA-256 round. -/
def sha2Step (st : Sha2State) (kw : Nat × Nat) : Sha2State :=
  let ch := (st.e &&& st.f) ^^^ ((0xffffffff ^^^ st.e) &&& st.g)
  let maj := (st.a &&& st.b) ^^^ (st.a &&& st.c) ^^^ (st.b &&& st.c)
  let t1 := h32 (st.h + bsig1 st.e + ch + kw.1 + kw.2)
  let t2 := h32 (bsig0 st.a + maj)
  ⟨h32 (t1 + t2), st.a, st.b, st.c, h32 (st.d + t1), st.e, st.f, st.g⟩

/-- Process one 64-byte block. -/
def compress (st : Sha2State) (block : List Nat) : Sha2State :=
  let ws := extendW (bytesToWords block) 48
  let fin := (sha256K.zip ws).foldl sha2Step st
  ⟨h32 (st.a + fin.a), h32 (st.b + fin.b), h32 (st.c + fin.c), h32 (st.d + fin.d),
   h32 (st.e + fin.e), h32 (st.f + fin.f), h32 (st.g + fin.g), h32 (st.h + fin.h)⟩

/-- The 8-byte big-endian message length trailer. -/
def len8be (n : Nat) : List Nat :=
  [(n >>> 56) % 256, (n >>> 48) % 256, (n >>> 40) % 256, (n >>> 32) % 256,
   (n >>> 24) % 256, (n >>> 16) % 256, (n >>> 8) % 256, n % 256]

/-- SHA-256 message padding to a multiple of 64 bytes. -/
def padMsg (m : List Nat) : List Nat :=
  m ++ [0x80] ++ List.replicate ((64 - ((m.length + 9) % 64)) % 64) 0 ++ len8be (m.length * 8)

def chunksGo (fuel : Nat) (l : List Nat) : List (List Nat) :=
  match fuel, l with
  | 0, _ => []
  | _, [] => []
  | f+1, x :: xs => (x :: xs).take 64 :: chunksGo f ((x :: xs).drop 64)

def chunks64 (l : List Nat) : List (List Nat) := chunksGo l.length l

def word4be (w : Nat) : List Nat := [(w >>> 24) % 256, (w >>> 16) % 256, (w >>> 8) % 256, w % 256]

def stateBytes (s : Sha2State) : List Nat :=
  word4be s.a ++ word4be s.b ++ word4be s.c ++ word4be s.d ++
  word4be s.e ++ word4be s.f ++ word4be s.g ++ word4be s.h

/-- SHA-256 of a byte string (`hashlib.sha256(m).digest()`). -/
def sha256 (m : List Nat) : List Nat :=
  stateBytes ((chunks64 (padMsg m)).foldl compress sha256init)

/-- Lower-case hex character for a nibble. -/
def hexDigitChar (n : Nat) : Nat := if n < 10 then 48 + n else 87 + n

/-- Lower-case hex encoding (`.hexdigest()` as bytes). -/
def hexEncode (bs : Bytes) : Bytes :=
  bs.foldr (fun b acc => hexDigitChar (b / 16) :: hexDigitChar (b % 16) :: acc) []

/-- HMAC-SHA256 (`hmac.new(key, msg, sha256).digest()`). -/
def hmacSha256 (key msg : Bytes) : Bytes :=
  let kh := if key.length > 64 then sha256 key else key
  let k0 := kh ++ List.replicate (64 - kh.length) 0
  sha256 ((k0.map (fun b => b ^^^ 0x5c)) ++ sha256 ((k0.map (fun b => b ^^^ 0x36)) ++ msg))

example : hexEncode (sha256 []) =
    str2b "e3b0c44298fc1c149afbf4c8996fb92427ae41e4649b934ca495991b7852b855" := by decide

example : hexEncode (sha256 (str2b "abc")) =
    str2b "ba7816bf8f01cfea414140de5dae2223b00361a396177a9cb410ff61f20015ad" := by decide

example : hexEncode (hmacSha256 (str2b "key") (str2b "The quick brown fox jumps over the lazy dog")) =
    str2b "f7bc83f430538424b13298e6aa6fb143ef4d59a14946175997479dbc2d1a3cd8" := by decide

/-! ### Python byte-string helpers used by `signature_v4.py` and `server.py` -/

/-- `bytes.replace(b",", b"")` — removes every comma. -/
def dropCommas (b : Bytes) : Bytes := b.filter (fun c => c != 44)

def splitByteAux (sep : Nat) : Bytes → Bytes → List Bytes
  | [], cur => [cur.reverse]
  | c :: rest, cur =>
    if c = sep then cur.reverse :: splitByteAux sep rest [] else splitByteAux sep rest (c :: cur)

/-- `bytes.split(sep)` for a single-byte separator; `b"".split(sep) = [b""]`. -/
def splitByte (sep : Nat) (l : Bytes) : List Bytes := splitByteAux sep l []

/-- `bytes.split(sep, 1)`: `none` when the separator is absent (a 1-element result). -/
def splitOnce (sep : Nat) : Bytes → Option (Bytes × Bytes)
  | [] => none
  | c :: rest =>
    if c = sep then some ([], rest)
    else (splitOnce sep rest).map (fun p => (c :: p.1, p.2))

/-- A UTF-8 continuation byte. -/
def utf8Cont (b : Nat) : Bool := 128 ≤ b && b < 192

/-- Validity of a byte string under Python's strict UTF-8 decoding
(rejecting overlong forms, surrogates and out-of-range sequences). -/
def utf8Valid : Bytes → Bool
  | [] => true
  | b :: rest =>
    if b < 128 then utf8Valid rest
    else if 194 ≤ b && b ≤ 223 then
      match rest with
      | c :: r2 => utf8Cont c && utf8Valid r2
      | _ => false
    else if b = 224 then
      match rest with
      | c :: d :: r2 => (160 ≤ c && c < 192) && utf8Cont d && utf8Valid r2
      | _ => false
    else if (225 ≤ b && b ≤ 236) || b = 238 || b = 239 then
      match rest with
      | c :: d :: r2 => utf8Cont c && utf8Cont d && utf8Valid r2
      | _ => false
    else if b = 237 then
      match rest with
      | c :: d :: r2 => (128 ≤ c && c < 160) && utf8Cont d && utf8Valid r2
      | _ => false
    else if b = 240 then
      match rest with
      | c :: d :: e :: r2 => (144 ≤ c && c < 192) && utf8Cont d && utf8Cont e && utf8Valid r2
      | _ => false
    else if 241 ≤ b && b ≤ 243 then
      match rest with
      | c :: d :: e :: r2 => utf8Cont c && utf8Cont d && utf8Cont e && utf8Valid r2
      | _ => false
    else if b = 244 then
      match rest with
      | c :: d :: e :: r2 => (128 ≤ c && c < 144) && utf8Cont d && utf8Cont e && utf8Valid r2
      | _ => false
    else false

/-- Value of a hex digit character, if it is one. -/
def hexVal (c : Nat) : Option Nat :=
  if 48 ≤ c && c ≤ 57 then some (c - 48)
  else if 97 ≤ c && c ≤ 102 then some (c - 87)
  else if 65 ≤ c && c ≤ 70 then some (c - 55)
  else none

def fromHexGo : Bytes → Option Bytes
  | [] => some []
  | a :: b :: rest =>
    match hexVal a, hexVal b, fromHexGo rest with
    | some x, some y, some r => some ((x * 16 + y) :: r)
    | _, _, _ => none
  | _ => none

/-- An ASCII whitespace byte. -/
def isPyWs (c : Nat) : Bool := c = 32 || c = 9 || c = 10 || c = 11 || c = 12 || c = 13

/-- `bytes.fromhex` (ASCII whitespace is skipped; an odd count or a
non-hex character raises `ValueError`, modelled as `none`). -/
def fromHex (b : Bytes) : Option Bytes :=
  fromHexGo (b.filter (fun c => !isPyWs c))

/-- `str.isdigit` restricted to ASCII content. -/
def isDigits (b : Bytes) : Bool := b != [] && b.all (fun c => 48 ≤ c && c ≤ 57)

/-- `int(s)` for an ASCII-digit string. -/
def digitsToNat (b : Bytes) : Nat := b.foldl (fun acc c => acc * 10 + (c - 48)) 0

/-- ASCII lower-casing of one byte. -/
def lowerByte (b : Nat) : Nat := if 65 ≤ b && b ≤ 90 then b + 32 else b

def lowerBytes (b : Bytes) : Bytes := b.map lowerByte

/-! ### HTTP request model (the parts of `blacksheep.Request` the code reads) -/

/-- An inbound HTTP request: method, URL path, raw query string, headers
(in order, values as raw bytes) and the chunked body from `request.stream()`. -/
structure Request where
  method : Bytes
  path : Bytes
  rawQuery : Bytes
  headers : List (Bytes × Bytes)
  body : List Bytes
deriving Repr, DecidableEq

/-- `request.headers.get_first(name)`: case-insensitive, first match, `None` when absent. -/
def getFirst (hs : List (Bytes × Bytes)) (name : Bytes) : Option Bytes :=
  (hs.find? (fun p => lowerBytes p.1 == lowerBytes name)).map Prod.snd

/-- Python exceptions that the protocol core can raise.  `accessDenied` and
`invalidAccessKeyId` are the repository's own exception classes (raised by the
backend `access_key` check); the rest are built-in exceptions escaping from the
routing code.  `tokenInvalid` stands for the failure of the upload-token
decoder (its module is modelled from the spec). -/
inductive PyErr where
  | accessDenied
  | invalidAccessKeyId
  | assertionError
  | attributeError
  | typeError
  | valueError
  | unicodeDecodeError
  | tokenInvalid
deriving Repr, DecidableEq

deriving instance DecidableEq for Except

/-- Authentication errors: the repository's credential exceptions, which the
spec maps to the 401/403 protocol responses. -/
def isAuthError : PyErr → Bool
  | .accessDenied => true
  | .invalidAccessKeyId => true
  | _ => false

/-! ### `signature_v4.py`: the SigV4 signing context -/

/-- The `SignatureV4` object.  `signature` holds the hex-decoded request
signature (`bytes.fromhex` is applied in `__init__`); `amzdate` is the raw
`x-amz-date` header, which `get_first` may fail to find. -/
structure SignatureV4 where
  key_id : Bytes
  signature : Bytes
  datestamp : Bytes
  region : Bytes
  signed_headers : Bytes
  amzdate : Option Bytes
  request : Request
deriving Repr, DecidableEq

/-- One canonical-request header line, `name + b":" + get_first(name)`
(source line 37); `none` models the `TypeError` when the header is absent. -/
def headerLine (req : Request) (name : Bytes) : Option Bytes :=
  (getFirst req.headers name).map (fun v => name ++ [58] ++ v)

/-- The canonical request of `SignatureV4.verify` (source lines 33-41):
newline-joined method, path, raw query, the `name:value` lines for the
signed headers in list order, a blank line, the signed-header list, and the
`x-amz-content-sha256` header value.  `none` models the `TypeError` raised
when a signed header or the content-hash header is missing. -/
def canonicalRequest (st : SignatureV4) : Option Bytes :=
  match (splitByte 59 st.signed_headers).mapM (headerLine st.request),
      getFirst st.request.headers (str2b "x-amz-content-sha256") with
  | some lines, some csha =>
    some (List.intercalate [10] [st.request.method, st.request.path, st.request.rawQuery,
      List.intercalate [10] lines, [], st.signed_headers, csha])
  | _, _ => none

/-- The string to sign (source lines 42-47): algorithm tag, timestamp,
credential scope, hex SHA-256 of the canonical request.  `none` models the
`TypeError` raised when the canonical request fails or `amzdate` is `None`. -/
def toSignFor (st : SignatureV4) : Option Bytes :=
  match canonicalRequest st, st.amzdate with
  | some cr, some ad =>
    some (List.intercalate [10] [str2b "AWS4-HMAC-SHA256", ad,
      List.intercalate [47] [st.datestamp, st.region, str2b "s3", str2b "aws4_request"],
      hexEncode (sha256 cr)])
  | _, _ => none

/-- The four-step HMAC-SHA256 key-derivation chain (source lines 50-53). -/
def sigKeyChain (secret datestamp region : Bytes) : Bytes :=
  hmacSha256 (hmacSha256 (hmacSha256 (hmacSha256 (str2b "AWS" ++ secret) datestamp)
    region) (str2b "s3")) (str2b "aws4_request")

/-- The signature `verify` derives and compares against (source line 55). -/
def codeExpected (st : SignatureV4) (secret : Bytes) : Bytes :=
  hmacSha256 (sigKeyChain secret st.datestamp st.region) ((toSignFor st).getD [])

/-- `SignatureV4.verify` (source lines 32-55), composed as the server calls it:
the secret may be `None` (then `access_key.encode` raises `AttributeError`,
after the canonical request and string-to-sign are built). -/
def verifyRun (st : SignatureV4) (secret : Option Bytes) : Except PyErr Bool :=
  match toSignFor st with
  | none => .error .typeError
  | some ts =>
    match secret with
    | none => .error .attributeError
    | some sk => .ok (st.signature == hmacSha256 (sigKeyChain sk st.datestamp st.region) ts)

/-! Specification-side definitions for claim C2, following the spec words of
§4.2: identical to the code's construction except that each header line uses
the lower-cased header name. -/

/-- The canonical request as the spec sentence describes it: `name:value`
with a lower-cased name. -/
def headerLineSpec (req : Request) (name : Bytes) : Option Bytes :=
  (getFirst req.headers name).map (fun v => lowerBytes name ++ [58] ++ v)

def canonicalRequestSpec (st : SignatureV4) : Option Bytes :=
  match (splitByte 59 st.signed_headers).mapM (headerLineSpec st.request),
      getFirst st.request.headers (str2b "x-amz-content-sha256") with
  | some lines, some csha =>
    some (List.intercalate [10] [st.request.method, st.request.path, st.request.rawQuery,
      List.intercalate [10] lines, [], st.signed_headers, csha])
  | _, _ => none

def toSignSpec (st : SignatureV4) : Option Bytes :=
  match canonicalRequestSpec st, st.amzdate with
  | some cr, some ad =>
    some (List.intercalate [10] [str2b "AWS4-HMAC-SHA256", ad,
      List.intercalate [47] [st.datestamp, st.region, str2b "s3", str2b "aws4_request"],
      hexEncode (sha256 cr)])
  | _, _ => none

/-- The signature claim C2 says `verify` compares against. -/
def specExpected (st : SignatureV4) (secret : Bytes) : Bytes :=
  hmacSha256 (sigKeyChain secret st.datestamp st.region) ((toSignSpec st).getD [])

/-! ### `SignatureV4.parse` (source lines 61-82) -/

/-- Python dict membership for an association list. -/
def hasKey (q : List (Bytes × Bytes)) (k : Bytes) : Bool := q.any (fun p => p.1 == k)

/-- Python dict lookup where a later binding overrides an earlier one. -/
def lookupLast (q : List (Bytes × Bytes)) (k : Bytes) : Bytes :=
  ((q.reverse.find? (fun p => p.1 == k)).map Prod.snd).getD []

/-- The `key=value` splitting of the auth-header tokens (source line 70):
`kv.split(b"=", 1)` raises `ValueError` on a token without `=`, and the key is
decoded as UTF-8 (raising `UnicodeDecodeError` on invalid bytes). -/
def authKvPairs : List Bytes → Except PyErr (List (Bytes × Bytes))
  | [] => .ok []
  | kv :: rest =>
    match splitOnce 61 kv with
    | none => .error .valueError
    | some (k, v) =>
      if utf8Valid k then
        match authKvPairs rest with
        | .error e => .error e
        | .ok tl => .ok ((k, v) :: tl)
      else .error .unicodeDecodeError

/-- `SignatureV4.parse`: `.ok none` models returning `None` (absent), and
`.error` models an exception escaping `parse`. -/
def parseAuth (req : Request) : Except PyErr (Option SignatureV4) :=
  match getFirst req.headers (str2b "authorization") with
  | none => .ok none
  | some ah =>
    if ah = [] then .ok none
    else
      if (splitByte 32 (dropCommas ah)).headD [] != str2b "AWS4-HMAC-SHA256" then .ok none
      else
        match authKvPairs (splitByte 32 (dropCommas ah)).tail with
        | .error e => .error e
        | .ok dict =>
          if !(hasKey dict (str2b "Credential") && hasKey dict (str2b "SignedHeaders") &&
              hasKey dict (str2b "Signature")) then .ok none
          else
            match splitByte 47 (lookupLast dict (str2b "Credential")) with
            | kid :: ds :: rg :: _ =>
              if !utf8Valid (lookupLast dict (str2b "Signature")) then .error .unicodeDecodeError
              else
                match fromHex (lookupLast dict (str2b "Signature")) with
                | none => .error .valueError
                | some sig =>
                  .ok (some ⟨kid, sig, ds, rg, lookupLast dict (str2b "SignedHeaders"),
                    getFirst req.headers (str2b "x-amz-date"), req⟩)
            | _ => .ok none

/-! ### Upload token codec (spec §4.4) -/

/-- A decoded upload token: bucket name, object key, and the identity that
initiated the upload (`None` for an anonymous identity). -/
structure UploadToken where
  bucket : Bytes
  obj : Bytes
  keyId : Option Bytes
deriving Repr, DecidableEq

/-- A 4-byte big-endian length. -/
def lenBE4 (n : Nat) : Bytes :=
  [n / 16777216 % 256, n / 65536 % 256, n / 256 % 256, n % 256]

/-- One length-prefixed field of the token payload. -/
def packField (b : Bytes) : Bytes := lenBE4 b.length ++ b

/-- One optional field (a presence tag, then the field). -/
def packOptField : Option Bytes → Bytes
  | none => [0]
  | some b => 1 :: packField b

/-- Modelled from the spec: the canonical byte-concatenation of the three
token fields which `JWTMpNoTs.encode` packs (`jwt_msgpack.py` is not under
`src/`; §4.4 specifies packing bucket, object key and identity). -/
def packPayload (t : UploadToken) : Bytes :=
  packField t.bucket ++ (packField t.obj ++ packOptField t.keyId)

/-- Modelled from the spec: `JWTMpNoTs.encode` / `issue(bucket, objectKey,
identity, secret)` — the packed fields followed by an HMAC-SHA256 tag computed
over their canonical byte-concatenation (§4.4), serialized in the URL-safe
textual encoding the token travels in (modelled as hex). -/
def jwtEncode (t : UploadToken) (secret : Bytes) : Bytes :=
  hexEncode (packPayload t ++ hmacSha256 secret (packPayload t))

/-- Reads one length-prefixed field, returning it and the remaining bytes. -/
def readField (b : Bytes) : Option (Bytes × Bytes) :=
  match b with
  | l3 :: l2 :: l1 :: l0 :: rest =>
    if l3 * 16777216 + l2 * 65536 + l1 * 256 + l0 ≤ rest.length then
      some (rest.take (l3 * 16777216 + l2 * 65536 + l1 * 256 + l0),
        rest.drop (l3 * 16777216 + l2 * 65536 + l1 * 256 + l0))
    else none
  | _ => none

def readOptField (b : Bytes) : Option (Option Bytes × Bytes) :=
  match b with
  | 0 :: rest => some (none, rest)
  | 1 :: rest => (readField rest).map (fun p => (some p.1, p.2))
  | _ => none

/-- Decodes a packed payload; fails unless exactly three fields are present
with no trailing bytes. -/
def parsePayload (b : Bytes) : Option UploadToken :=
  match readField b with
  | none => none
  | some (bucket, r1) =>
    match readField r1 with
    | none => none
    | some (obj, r2) =>
      match readOptField r2 with
      | some (kid, []) => some ⟨bucket, obj, kid⟩
      | _ => none

/-- Modelled from the spec: `JWTMpNoTs.decode` / `redeem(token, secret)` —
fails closed (`none`) on an undecodable or truncated token, a tag mismatch,
or a payload decode error, and never returns a partial result (§4.4). -/
def jwtDecode (token : Bytes) (secret : Bytes) : Option UploadToken :=
  match fromHex token with
  | none => none
  | some raw =>
    if raw.length < 32 then none
    else
      let payload := raw.take (raw.length - 32)
      let tag := raw.drop (raw.length - 32)
      if tag != hmacSha256 secret payload then none
      else parsePayload payload

/-! ### Streaming write path (spec §4.5) -/

/-- A backend write sink as the router sees it: either a plain
`BaseWriteStream` (identified by a number) or an `ETagWriteStream` decorator
holding the plain sink it delegates to and the bytes hashed so far.
The decorator itself is modelled from the spec (`etag_stream.py` is not under
`src/`; §4.5: every chunk passed through is fed into a running hash and
forwarded, and on finalize the hex-encoded digest is exposed). -/
inductive WStream where
  | plain (id : Nat)
  | etag (inner : Nat) (acc : Bytes)
deriving Repr, DecidableEq

/-- `stream if isinstance(stream, ETagWriteStream) else ETagWriteStream(stream)`
(source line 88). -/
def wrapIfPlain : WStream → WStream
  | .plain i => .etag i []
  | s => s

/-- The underlying plain sink of a (possibly wrapped) stream. -/
def innerSink : WStream → Nat
  | .plain i => i
  | .etag i _ => i

/-! ### The backend collaborator and the call trace -/

/-- The target of the access-control check: a bucket, an object, or nothing. -/
inductive Target where
  | bucket (name : Bytes)
  | object (bucketName : Bytes) (name : Bytes) (size : Nat)
deriving Repr, DecidableEq

/-- One backend invocation, recorded with the arguments the router passes at
the corresponding call site in `server.py`. -/
inductive BCall where
  | accessKey (keyId : Option Bytes) (target : Option Target)
  | listBuckets (keyId : Option Bytes)
  | listBucket (keyId : Option Bytes) (bucketName : Bytes)
  | readObject (bucketName objectName : Bytes)
  | writeObject (bucketName objectName : Bytes)
  | writeObjectMultipart (bucketName objectName : Bytes) (partNumber : Nat)
  | createMultipartUpload (bucketName objectName : Bytes)
  | finishMultipartUpload (bucketName objectName : Bytes)
  | sinkWrite (sink : Nat) (chunk : Option Bytes)
deriving Repr, DecidableEq

/-- The pluggable storage backend (`BaseInterface`), abstracted as the
responses it gives to the router's calls.  `accessKey` may raise the
repository's `AccessDenied` / `InvalidAccessKeyId` exceptions; any operation
may fail with a storage error. -/
structure Backend where
  accessKey : Option Bytes → Option Target → Except PyErr (Option Bytes)
  listBuckets : Option Bytes → Except PyErr (List Bytes)
  listBucket : Option Bytes → Bytes → Except PyErr (List (Bytes × Nat))
  readObject : Bytes → Bytes → Except PyErr (List Bytes)
  writeObject : Bytes → Bytes → Except PyErr WStream
  writeObjectMultipart : Bytes → Bytes → Nat → Except PyErr WStream
  createMultipartUpload : Bytes → Bytes → Except PyErr (Bytes × Bytes)
  finishMultipartUpload : Bytes → Bytes → Except PyErr Unit

/-- A handler outcome paired with the ordered trace of backend calls. -/
abbrev Srv (α : Type) := Except PyErr α × List BCall

/-! ### `S3Server._auth` (source lines 29-35) -/

/-- The `_auth` flow: parse the header, decode the key id, ask the backend
for the access key, call `verify` and discard its result, return the key id.
When `parse` returned `None`, `state.verify` raises `AttributeError`; the
backend access check has already run at that point. -/
def authRun (be : Backend) (req : Request) (target : Option Target) : Srv (Option Bytes) :=
  match parseAuth req with
  | .error e => (.error e, [])
  | .ok st? =>
    let keyIdE : Except PyErr (Option Bytes) :=
      match st? with
      | none => .ok none
      | some st => if utf8Valid st.key_id then .ok (some st.key_id) else .error .unicodeDecodeError
    match keyIdE with
    | .error e => (.error e, [])
    | .ok keyId =>
      match be.accessKey keyId target with
      | .error e => (.error e, [.accessKey keyId target])
      | .ok secret =>
        match st? with
        | none => (.error .attributeError, [.accessKey keyId target])
        | some st =>
          match verifyRun st secret with
          | .error e => (.error e, [.accessKey keyId target])
          | .ok _ => (.ok keyId, [.accessKey keyId target])

/-! ### The route handlers of `server.py` -/

/-- An HTTP response assembled by a handler (status and added headers). -/
structure Response where
  status : Nat
  headers : List (Bytes × Bytes)
deriving Repr, DecidableEq

/-- Modelled from the spec: the XML documents of §4.6 that handlers serialize
(`responses.py` is not under `src/`); only their field content is modelled. -/
inductive HandlerOut where
  | xmlListAllMyBuckets (buckets : List Bytes) (owner : Option Bytes)
  | xmlInitiateMultipartUpload (bucketName objectName uploadId : Bytes)
  | xmlCompleteMultipartUpload (bucketName objectName : Bytes)
deriving Repr, DecidableEq

/-- The query-string parsing shared by `_write_object` and `_create_multipart`
(source lines 70 and 100): split on `&`, decode each pair as UTF-8, split on
`=`; a pair that does not split into exactly two parts raises `ValueError`. -/
def parseQueryGo : List Bytes → Except PyErr (List (Bytes × Bytes))
  | [] => .ok []
  | kv :: rest =>
    if !utf8Valid kv then .error .unicodeDecodeError
    else
      match splitByte 61 kv with
      | [k, v] =>
        match parseQueryGo rest with
        | .error e => .error e
        | .ok tl => .ok ((k, v) :: tl)
      | _ => .error .valueError

def parseQuery (raw : Bytes) : Except PyErr (List (Bytes × Bytes)) :=
  parseQueryGo (splitByte 38 raw)

/-- `S3Server._list_buckets` (source lines 37-40). -/
def listBucketsRun (be : Backend) (req : Request) : Srv HandlerOut :=
  match authRun be req none with
  | (.error e, t) => (.error e, t)
  | (.ok keyId, t) =>
    match be.listBuckets keyId with
    | .error e => (.error e, t ++ [.listBuckets keyId])
    | .ok bs => (.ok (.xmlListAllMyBuckets bs keyId), t ++ [.listBuckets keyId])

/-- `S3Server._read_object` (source lines 57-66): authenticate against the
object, open the backend read stream — passing only the object, never a byte
range — and stream its chunks until end of data. -/
def readObjectRun (be : Backend) (req : Request) (bucketName objectName : Bytes) :
    Srv (Bytes × List Bytes) :=
  match authRun be req (some (.object bucketName objectName 0)) with
  | (.error e, t) => (.error e, t)
  | (.ok _, t) =>
    match be.readObject bucketName objectName with
    | .error e => (.error e, t ++ [.readObject bucketName objectName])
    | .ok chunks =>
      (.ok (str2b "application/octet-stream", chunks), t ++ [.readObject bucketName objectName])

/-- The streaming loop of `_write_object` (source lines 89-91): each non-empty
body chunk is hashed into the decorator state and forwarded to the plain sink,
in order; empty chunks are skipped (`if chunk:`). -/
def feedBody (sink : Nat) : List Bytes → Bytes → Bytes × List BCall
  | [], acc => (acc, [])
  | c :: rest, acc =>
    if c != [] then
      let r := feedBody sink rest (acc ++ c)
      (r.1, .sinkWrite sink (some c) :: r.2)
    else feedBody sink rest acc

/-- The tail of `_write_object` (source lines 88-97): wrap a plain sink in the
digest decorator, stream the body, finalize with a single end-of-data write,
and answer 200 with the hex digest as the ETag header. -/
def writeSection (md5 : Bytes → Bytes) (s0 : WStream) (body : List Bytes) :
    Response × List BCall :=
  let s := wrapIfPlain s0
  let sink := innerSink s
  let acc0 := match s with
    | .etag _ a => a
    | .plain _ => []
  let fed := feedBody sink body acc0
  (⟨200, [(str2b "ETag", hexEncode (md5 fed.1))]⟩, fed.2 ++ [.sinkWrite sink none])

/-- `S3Server._write_object` (source lines 68-97).  The ETag digest function
is a parameter (`etag_stream.py` is not under `src/`; §4.5 specifies a running
cryptographic hash over the streamed chunks). -/
def writeObjectRun (md5 : Bytes → Bytes) (be : Backend) (req : Request)
    (bucketName objectName : Bytes) : Srv Response :=
  match parseQuery req.rawQuery with
  | .error e => (.error e, [])
  | .ok q =>
    let uploadInfoE : Except PyErr (Option UploadToken) :=
      if hasKey q (str2b "uploadId") then
        if !(hasKey q (str2b "partNumber") && isDigits (lookupLast q (str2b "partNumber"))) then
          .error .assertionError
        else
          match jwtDecode (lookupLast q (str2b "uploadId")) (str2b "123456") with
          | none => .error .tokenInvalid
          | some info =>
            if info.bucket != bucketName then .error .assertionError
            else if info.obj != objectName then .error .assertionError
            else .ok (some info)
      else .ok none
    match uploadInfoE with
    | .error e => (.error e, [])
    | .ok info? =>
      match authRun be req (some (.bucket bucketName)) with
      | (.error e, t) => (.error e, t)
      | (.ok keyId, t) =>
        let idCheck : Except PyErr Unit :=
          match info? with
          | some info => if info.keyId != keyId then .error .assertionError else .ok ()
          | none => .ok ()
        match idCheck with
        | .error e => (.error e, t)
        | .ok _ =>
          let streamE : Srv WStream :=
            match info? with
            | none =>
              match be.writeObject bucketName objectName with
              | .error e => (.error e, [.writeObject bucketName objectName])
              | .ok s => (.ok s, [.writeObject bucketName objectName])
            | some _ =>
              let pn := digitsToNat (lookupLast q (str2b "partNumber"))
              match be.writeObjectMultipart bucketName objectName pn with
              | .error e => (.error e, [.writeObjectMultipart bucketName objectName pn])
              | .ok s => (.ok s, [.writeObjectMultipart bucketName objectName pn])
          match streamE with
          | (.error e, t2) => (.error e, t ++ t2)
          | (.ok s, t2) =>
            let ws := writeSection md5 s req.body
            (.ok ws.1, t ++ t2 ++ ws.2)

/-- `S3Server._create_multipart` (source lines 99-123): `assert False` when
neither `uploads` nor `uploadId` is present; initiate when `uploads` is
present (issuing a token over the path bucket, the backend-returned object
name and the authenticated identity); otherwise redeem the token, check its
three fields, and complete the upload. -/
def createMultipartRun (be : Backend) (req : Request) (bucketName objectName : Bytes) :
    Srv HandlerOut :=
  match parseQuery req.rawQuery with
  | .error e => (.error e, [])
  | .ok q =>
    if !hasKey q (str2b "uploads") && !hasKey q (str2b "uploadId") then
      (.error .assertionError, [])
    else
      match authRun be req (some (.bucket bucketName)) with
      | (.error e, t) => (.error e, t)
      | (.ok keyId, t) =>
        if hasKey q (str2b "uploads") then
          match be.createMultipartUpload bucketName objectName with
          | .error e => (.error e, t ++ [.createMultipartUpload bucketName objectName])
          | .ok obj =>
            let uploadId := jwtEncode ⟨bucketName, obj.2, keyId⟩ (str2b "123456")
            (.ok (.xmlInitiateMultipartUpload obj.1 obj.2 uploadId),
              t ++ [.createMultipartUpload bucketName objectName])
        else
          match jwtDecode (lookupLast q (str2b "uploadId")) (str2b "123456") with
          | none => (.error .tokenInvalid, t)
          | some info =>
            if info.bucket != bucketName then (.error .assertionError, t)
            else if info.obj != objectName then (.error .assertionError, t)
            else if info.keyId != keyId then (.error .assertionError, t)
            else
              match be.finishMultipartUpload bucketName objectName with
              | .error e => (.error e, t ++ [.finishMultipartUpload bucketName objectName])
              | .ok _ =>
                (.ok (.xmlCompleteMultipartUpload bucketName objectName),
                  t ++ [.finishMultipartUpload bucketName objectName])

/-! ### Helper lemmas -/

theorem stateBytes_length (s : Sha2State) : (stateBytes s).length = 32 := by
  simp [stateBytes, word4be]

theorem sha256_length (m : Bytes) : (sha256 m).length = 32 := stateBytes_length _

theorem word4be_lt (w : Nat) : ∀ c ∈ word4be w, c < 256 := by
  intro c hc
  simp only [word4be, List.mem_cons, List.not_mem_nil, or_false] at hc
  rcases hc with h | h | h | h <;> subst h <;> omega

theorem stateBytes_lt (s : Sha2State) : ∀ c ∈ stateBytes s, c < 256 := by
  intro c hc
  simp only [stateBytes, List.mem_append] at hc
  rcases hc with ((((((h | h) | h) | h) | h) | h) | h) | h <;> exact word4be_lt _ _ h

theorem sha256_lt (m : Bytes) : ∀ c ∈ sha256 m, c < 256 := stateBytes_lt _

theorem hmacSha256_length (k m : Bytes) : (hmacSha256 k m).length = 32 := sha256_length _

theorem hmacSha256_lt (k m : Bytes) : ∀ c ∈ hmacSha256 k m, c < 256 := sha256_lt _

theorem hmacSha256_ne_nil (k m : Bytes) : hmacSha256 k m ≠ [] := by
  intro h
  have h32 := hmacSha256_length k m
  rw [h] at h32
  simp at h32

theorem verifyRun_ok (st : SignatureV4) (sk ts : Bytes) (h : toSignFor st = some ts) :
    verifyRun st (some sk) =
      .ok (st.signature == hmacSha256 (sigKeyChain sk st.datestamp st.region) ts) := by
  unfold verifyRun
  rw [h]

/-- The Canonical Signer of spec §4.1: `sign(secret, dateStamp, region,
service, toSign)` as the four-step HMAC-SHA256 chain described there. -/
def signSpec (secret dateStamp region service toSign : Bytes) : Bytes :=
  hmacSha256 (hmacSha256 (hmacSha256 (hmacSha256 (hmacSha256 (str2b "AWS" ++ secret)
    dateStamp) region) service) (str2b "aws4_request")) toSign

/-! ### Concrete material: a signed request whose signature does not verify -/

def secretW : Bytes := str2b "access_key"

def authHeaderC1 : Bytes :=
  str2b "AWS4-HMAC-SHA256 Credential=AKID/20240101/us-east-1/s3/aws4_request, SignedHeaders=host, Signature="

def reqC1 : Request :=
  { method := str2b "GET", path := str2b "/", rawQuery := [],
    headers := [(str2b "authorization", authHeaderC1),
                (str2b "host", str2b "s3server.test"),
                (str2b "x-amz-date", str2b "20240101T000000Z"),
                (str2b "x-amz-content-sha256", str2b "UNSIGNED-PAYLOAD")],
    body := [] }

def ctxC1 : SignatureV4 :=
  ⟨str2b "AKID", [], str2b "20240101", str2b "us-east-1", str2b "host",
    some (str2b "20240101T000000Z"), reqC1⟩

def beC1 : Backend :=
  { accessKey := fun _ _ => .ok (some secretW),
    listBuckets := fun _ => .ok [str2b "b"],
    listBucket := fun _ _ => .ok [],
    readObject := fun _ _ => .ok [str2b "data"],
    writeObject := fun _ _ => .ok (.plain 0),
    writeObjectMultipart := fun _ _ _ => .ok (.plain 0),
    createMultipartUpload := fun b o => .ok (b, o),
    finishMultipartUpload := fun _ _ => .ok () }

/-- C1: For every request carrying a parseable Authorization header, a failed
`SignatureV4.verify` must reject the request before any backend operation.
The code violates this: at the concrete request `reqC1` (whose empty hex
signature cannot match the derived HMAC), `parse` succeeds, `verify` returns
`false`, yet `_auth` returns the key id, the backend listing executes, and
the handler answers normally — `server.py:33` discards the boolean. -/
theorem C1_verify_result_unenforced :
    parseAuth reqC1 = .ok (some ctxC1)
    ∧ verifyRun ctxC1 (some secretW) = .ok false
    ∧ listBucketsRun beC1 reqC1
        = (.ok (.xmlListAllMyBuckets [str2b "b"] (some (str2b "AKID"))),
           [.accessKey (some (str2b "AKID")) none, .listBuckets (some (str2b "AKID"))]) := by
  refine ⟨by decide, ?_, by decide⟩
  have hts : (toSignFor ctxC1).isSome := by decide
  obtain ⟨ts, hts'⟩ := Option.isSome_iff_exists.mp hts
  rw [verifyRun_ok ctxC1 secretW ts hts']
  have hsig : ctxC1.signature = [] := rfl
  have hne : ctxC1.signature ≠ hmacSha256 (sigKeyChain secretW ctxC1.datestamp ctxC1.region) ts := by
    rw [hsig]
    exact fun h => hmacSha256_ne_nil _ _ h.symm
  simp [beq_eq_false_iff_ne.mpr hne]

/-! ### Concrete material: an anonymous request on a public bucket -/

def reqAnon : Request :=
  { method := str2b "GET", path := str2b "/public", rawQuery := [],
    headers := [(str2b "host", str2b "s3server.test")],
    body := [] }

def bePub : Backend :=
  { accessKey := fun _ _ => .ok none,
    listBuckets := fun _ => .ok [],
    listBucket := fun _ _ => .ok [],
    readObject := fun _ _ => .ok [str2b "data"],
    writeObject := fun _ _ => .ok (.plain 0),
    writeObjectMultipart := fun _ _ _ => .ok (.plain 0),
    createMultipartUpload := fun b o => .ok (b, o),
    finishMultipartUpload := fun _ _ => .ok () }

/-- C6: An absent Authorization header must be treated as anonymous — the
identity `none` routed through the access-control check and, when the backend
grants public access, the operation proceeding with no identity.  The code
does pass `none` to the backend check (the trace shows the `accessKey` call),
but then `state.verify(access_key)` is called on the `None` parse result
(`server.py:33`), so the request dies with `AttributeError` instead of
proceeding: the anonymous/public path promised by `BaseInterface.access_key`'s
documentation can never succeed. -/
theorem C6_anonymous_crashes :
    parseAuth reqAnon = .ok none
    ∧ authRun bePub reqAnon (some (.bucket (str2b "public")))
        = (.error .attributeError, [.accessKey none (some (.bucket (str2b "public")))]) := by
  constructor
  · decide
  · decide

/-! ### Concrete material: a ranged read request -/

def reqRange : Request :=
  { method := str2b "GET", path := str2b "/b/o.bin", rawQuery := [],
    headers := [(str2b "authorization", authHeaderC1),
                (str2b "host", str2b "s3server.test"),
                (str2b "range", str2b "bytes=16-16397"),
                (str2b "x-amz-date", str2b "20240101T000000Z"),
                (str2b "x-amz-content-sha256", str2b "UNSIGNED-PAYLOAD")],
    body := [] }

def reqNoRange : Request :=
  { method := str2b "GET", path := str2b "/b/o.bin", rawQuery := [],
    headers := [(str2b "authorization", authHeaderC1),
                (str2b "host", str2b "s3server.test"),
                (str2b "x-amz-date", str2b "20240101T000000Z"),
                (str2b "x-amz-content-sha256", str2b "UNSIGNED-PAYLOAD")],
    body := [] }

/-- C8: A GET-object request carrying a byte-range header should have the
half-open `(start, end)` pair parsed and passed to the backend read stream.
The code never reads the Range header: `server.py:60` calls
`read_object(object_)` with no range argument (even though
`BaseInterface.read_object` documents a `content_range` parameter), so on the
concrete ranged request the backend is asked for the whole object — the trace
records `readObject` with only the object coordinates — and the handler's
result is bytewise identical to that of the same request without the Range
header. -/
theorem C8_range_header_ignored :
    readObjectRun beC1 reqRange (str2b "b") (str2b "o.bin")
      = (.ok (str2b "application/octet-stream", [str2b "data"]),
         [.accessKey (some (str2b "AKID")) (some (.object (str2b "b") (str2b "o.bin") 0)),
          .readObject (str2b "b") (str2b "o.bin")])
    ∧ readObjectRun beC1 reqRange (str2b "b") (str2b "o.bin")
      = readObjectRun beC1 reqNoRange (str2b "b") (str2b "o.bin") := by
  constructor
  · decide
  · decide

/-! ### Concrete material for C2: a context whose signed-header list is not
lower-case -/

def reqX : Request :=
  { method := str2b "GET", path := str2b "/", rawQuery := [],
    headers := [(str2b "Host", str2b "h"), (str2b "x-amz-content-sha256", str2b "c")],
    body := [] }

def stX0 : SignatureV4 :=
  ⟨str2b "AKID", [], str2b "d", str2b "r", str2b "Host", some (str2b "t"), reqX⟩

def tsCodeX : Bytes := (toSignFor stX0).getD []

def sigX : Bytes :=
  hmacSha256 (sigKeyChain (str2b "sec") (str2b "d") (str2b "r")) tsCodeX

def stX : SignatureV4 := { stX0 with signature := sigX }

def tsSpecX : Bytes := (toSignSpec stX).getD []

/-- A digest literal written in hex. -/
def hexLit (s : String) : Bytes := (fromHex (str2b s)).getD []

def k0lit : Bytes := hexLit "683223259c987ef7cdec0d80d93d67a66754bf246066c0020c16bf715a007829"

def k1lit : Bytes := hexLit "0f16cab2c7db9811cdc803e6d86543775289dbb3f1046e72c16d4a9401bd19f4"

def k2lit : Bytes := hexLit "b0adbc8c31f31d7503b20d5f09649c4c43f667205fb75958d93f1b9614dd14e7"

def k3lit : Bytes := hexLit "d4d9029041b1ee0a3beec2718af3d78fa14808039e34602f6cf5502a53d2b267"

theorem k0lit_eq : hmacSha256 (str2b "AWS" ++ str2b "sec") (str2b "d") = k0lit := by decide

theorem k1lit_eq : hmacSha256 k0lit (str2b "r") = k1lit := by decide

theorem k2lit_eq : hmacSha256 k1lit (str2b "s3") = k2lit := by decide

theorem k3lit_eq : hmacSha256 k2lit (str2b "aws4_request") = k3lit := by decide

theorem chainX_eq : sigKeyChain (str2b "sec") (str2b "d") (str2b "r") = k3lit := by
  unfold sigKeyChain
  rw [k0lit_eq, k1lit_eq, k2lit_eq, k3lit_eq]

def toSignCodeLit : Bytes := hexLit "415753342d484d41432d5348413235360a740a642f722f73332f617773345f726571756573740a36616265313331383238376261306533393534353434636130353465363633383762393335613365626264623735346361393533656236643261326261306239"

def toSignSpecLit : Bytes := hexLit "415753342d484d41432d5348413235360a740a642f722f73332f617773345f726571756573740a32313837333836616161646335643135383765356263636363393865326535376130363337613931363634633261303165323937333832396238656138613839"

theorem tsCodeX_eq : tsCodeX = toSignCodeLit := by decide

theorem tsSpecX_eq : tsSpecX = toSignSpecLit := by decide

def sigXlit : Bytes := hexLit "e8b9a34fbd2d24e4e753f7e482ddb438c84d3fb10a732d9c5e4c0212b8cc37ba"

def specXlit : Bytes := hexLit "ab9e04684bc70f24028b088264fba662028e79717824be7d1189c744407a4fdf"

theorem sigX_final : hmacSha256 k3lit toSignCodeLit = sigXlit := by decide

theorem specX_final : hmacSha256 k3lit toSignSpecLit = specXlit := by decide

theorem sigX_eq : sigX = sigXlit := by
  unfold sigX
  rw [chainX_eq, tsCodeX_eq]
  exact sigX_final

theorem specX_eq :
    signSpec (str2b "sec") stX.datestamp stX.region (str2b "s3") tsSpecX = specXlit := by
  show signSpec (str2b "sec") (str2b "d") (str2b "r") (str2b "s3") tsSpecX = specXlit
  unfold signSpec
  rw [k0lit_eq, k1lit_eq, k2lit_eq, k3lit_eq, tsSpecX_eq]
  exact specX_final

/-- C2 (amended): `verify` accepts exactly the signature derived by the §4.1
HMAC chain over the string-to-sign built from the canonical request — with the
header names used exactly as they appear in the signed-header list (the
verifier does not lower-case them). -/
theorem C2_verify_accepts_iff (st : SignatureV4) (sk ts : Bytes)
    (h : toSignFor st = some ts) :
    verifyRun st (some sk) = .ok true
      ↔ st.signature = signSpec sk st.datestamp st.region (str2b "s3") ts := by
  rw [verifyRun_ok st sk ts h]
  simp [signSpec, sigKeyChain, beq_iff_eq]

/-- Witness for C2 at the concrete context `stX`. -/
theorem C2_verify_accepts_iff_witness :
    toSignFor stX = some tsCodeX
    ∧ (verifyRun stX (some (str2b "sec")) = .ok true
        ↔ stX.signature = signSpec (str2b "sec") stX.datestamp stX.region (str2b "s3") tsCodeX) :=
  ⟨rfl, C2_verify_accepts_iff stX (str2b "sec") tsCodeX rfl⟩

/-- Counterexample to C2 as stated: the claim requires `verify` to accept
exactly the signature computed over canonical header lines with lower-cased
names.  At `stX` the signed-header list contains `Host`; the code's canonical
request keeps `Host:` as written (`signature_v4.py:37` does not lower-case),
so `verify` accepts `sigX` even though it differs from the claim's
lower-cased-name formula (the two derived values are computed stepwise in the
`lit` lemmas above). -/
theorem C2_counterexample :
    verifyRun stX (some (str2b "sec")) = .ok true
    ∧ toSignSpec stX = some tsSpecX
    ∧ stX.signature ≠ signSpec (str2b "sec") stX.datestamp stX.region (str2b "s3") tsSpecX := by
  refine ⟨?_, rfl, ?_⟩
  · rw [verifyRun_ok stX (str2b "sec") tsCodeX rfl]
    have hx : stX.signature
        = hmacSha256 (sigKeyChain (str2b "sec") stX.datestamp stX.region) tsCodeX := rfl
    rw [hx]
    simp
  · intro hcon
    have hx : stX.signature = sigXlit := sigX_eq
    rw [hx, specX_eq] at hcon
    exact absurd hcon (by decide)

/-! ### C7: characterization of `SignatureV4.parse` -/

def schemeTag : Bytes := str2b "AWS4-HMAC-SHA256"

/-- The space-separated tokens after the scheme word. -/
def authTokens (ah : Bytes) : List Bytes := (splitByte 32 (dropCommas ah)).tail

def tokenPair (kv : Bytes) : Bytes × Bytes := (splitOnce 61 kv).getD ([], [])

/-- A token that `parse` can process without raising: it contains `=` and its
key is valid UTF-8. -/
def tokenOk (kv : Bytes) : Bool :=
  match splitOnce 61 kv with
  | some (k, _) => utf8Valid k
  | none => false

/-- The auth dict built from well-formed tokens. -/
def authDict (ah : Bytes) : List (Bytes × Bytes) := (authTokens ah).map tokenPair

theorem authKvPairs_ok (l : List Bytes) (h : ∀ kv ∈ l, tokenOk kv = true) :
    authKvPairs l = .ok (l.map tokenPair) := by
  induction l with
  | nil => rfl
  | cons kv rest ih =>
    have hkv := h kv (by simp)
    unfold tokenOk at hkv
    unfold authKvPairs
    rcases hsp : splitOnce 61 kv with _ | ⟨k, v⟩
    · rw [hsp] at hkv; simp at hkv
    · rw [hsp] at hkv
      have hkv' : utf8Valid k = true := hkv
      rw [ih (fun x hx => h x (by simp [hx]))]
      simp [hkv', tokenPair, hsp]

def reqC7 : Request :=
  { method := str2b "GET", path := str2b "/", rawQuery := [],
    headers := [(str2b "authorization", str2b "AWS4-HMAC-SHA256 junk")],
    body := [] }

/-- Counterexample to C7 as stated: the claim says that with the right scheme
but the three sub-fields missing, `parse` returns absent.  On the concrete
header `AWS4-HMAC-SHA256 junk` the token `junk` has no `=`, so the unpacking
`for key, value in [kv.split(b"=", 1) ...]` raises `ValueError`
(`signature_v4.py:70`) instead of returning `None`. -/
theorem C7_counterexample :
    parseAuth reqC7 = .error .valueError
    ∧ ∀ r : Option SignatureV4, parseAuth reqC7 ≠ .ok r := by
  have h0 : parseAuth reqC7 = .error .valueError := by decide
  refine ⟨h0, fun r h => ?_⟩
  rw [h0] at h
  exact Except.noConfusion h

/-- C7 (amended): when the Authorization header is absent, `parse` returns
absent; when it is present, non-empty, every token after the scheme contains
`=` with a UTF-8-valid key, and the `Signature` value is valid UTF-8 hex,
then `parse` returns absent exactly when the scheme is wrong, one of
`Credential` / `SignedHeaders` / `Signature` is missing, or the credential
scope has fewer than 3 `/`-separated segments; otherwise it returns the
context populated with key-id, hex-decoded signature, date-stamp, region,
signed-header list and the `x-amz-date` timestamp. -/
theorem C7_parse_characterization (req : Request) :
    (getFirst req.headers (str2b "authorization") = none → parseAuth req = .ok none)
    ∧ (∀ ah, getFirst req.headers (str2b "authorization") = some ah → ah ≠ [] →
        (∀ kv ∈ authTokens ah, tokenOk kv = true) →
        utf8Valid (lookupLast (authDict ah) (str2b "Signature")) = true →
        (fromHex (lookupLast (authDict ah) (str2b "Signature"))).isSome = true →
        ((parseAuth req = .ok none ↔
            (splitByte 32 (dropCommas ah)).headD [] ≠ schemeTag
            ∨ ¬(hasKey (authDict ah) (str2b "Credential") = true
                ∧ hasKey (authDict ah) (str2b "SignedHeaders") = true
                ∧ hasKey (authDict ah) (str2b "Signature") = true)
            ∨ (splitByte 47 (lookupLast (authDict ah) (str2b "Credential"))).length < 3)
         ∧ ((splitByte 32 (dropCommas ah)).headD [] = schemeTag →
             hasKey (authDict ah) (str2b "Credential") = true →
             hasKey (authDict ah) (str2b "SignedHeaders") = true →
             hasKey (authDict ah) (str2b "Signature") = true →
             3 ≤ (splitByte 47 (lookupLast (authDict ah) (str2b "Credential"))).length →
             parseAuth req = .ok (some
               ⟨(splitByte 47 (lookupLast (authDict ah) (str2b "Credential"))).getD 0 [],
                (fromHex (lookupLast (authDict ah) (str2b "Signature"))).getD [],
                (splitByte 47 (lookupLast (authDict ah) (str2b "Credential"))).getD 1 [],
                (splitByte 47 (lookupLast (authDict ah) (str2b "Credential"))).getD 2 [],
                lookupLast (authDict ah) (str2b "SignedHeaders"),
                getFirst req.headers (str2b "x-amz-date"), req⟩)))) := by
  constructor
  · intro h
    unfold parseAuth
    rw [h]
  · intro ah hah hne htok hsigU hsigH
    simp only [authDict, authTokens, schemeTag] at htok hsigU hsigH ⊢
    unfold parseAuth
    rw [hah]
    dsimp only
    rw [if_neg hne, authKvPairs_ok _ htok]
    set P := splitByte 32 (dropCommas ah) with hP
    set D := P.tail.map tokenPair with hD
    dsimp only
    by_cases hsch : P.headD [] = str2b "AWS4-HMAC-SHA256"
    · rw [hsch, bne_self_eq_false, if_neg (by simp)]
      by_cases hk : (hasKey D (str2b "Credential") && hasKey D (str2b "SignedHeaders")
          && hasKey D (str2b "Signature")) = true
      · rw [hk]
        rw [if_neg (by simp)]
        simp only [Bool.and_eq_true] at hk
        rcases hscope : splitByte 47 (lookupLast D (str2b "Credential"))
            with _ | ⟨a, _ | ⟨b, _ | ⟨c, rest⟩⟩⟩
        · refine ⟨by simp [hsch, hscope], ?_⟩
          intro _ _ _ _ hlen
          simp at hlen
        · refine ⟨by simp [hsch, hscope], ?_⟩
          intro _ _ _ _ hlen
          simp at hlen
        · refine ⟨by simp [hsch, hscope], ?_⟩
          intro _ _ _ _ hlen
          simp at hlen
        · obtain ⟨sg, hsg⟩ := Option.isSome_iff_exists.mp hsigH
          constructor
          · constructor
            · intro hcon
              rw [hsigU, hsg] at hcon
              simp at hcon
            · intro hcon
              rcases hcon with h | h | h
              · exact absurd rfl h
              · exact absurd ⟨hk.1.1, hk.1.2, hk.2⟩ h
              · simp at h
                omega
          · intro _ _ _ _ _
            rw [hsigU, hsg]
            simp [List.getD]
      · have hk0 : (hasKey D (str2b "Credential") && hasKey D (str2b "SignedHeaders")
            && hasKey D (str2b "Signature")) = false := by
          rwa [Bool.eq_false_iff]
        rw [hk0, if_pos (by simp)]
        constructor
        · constructor
          · intro _
            right; left
            intro ⟨h1, h2, h3⟩
            exact hk (by simp [h1, h2, h3])
          · intro _
            rfl
        · intro _ h1 h2 h3 _
          exact absurd (by simp [h1, h2, h3]) hk
    · rw [if_pos (bne_iff_ne.mpr hsch)]
      constructor
      · constructor
        · intro _
          exact Or.inl hsch
        · intro _
          rfl
      · intro hsch'
        exact absurd hsch' hsch

def ahC7w : Bytes :=
  str2b "AWS4-HMAC-SHA256 Credential=AKID/20240101/us-east-1/s3/aws4_request, SignedHeaders=host, Signature=00"

def reqC7w : Request :=
  { method := str2b "GET", path := str2b "/", rawQuery := [],
    headers := [(str2b "authorization", ahC7w),
                (str2b "x-amz-date", str2b "20240101T000000Z")],
    body := [] }

/-- Witness for C7 at a concrete well-formed header: parse succeeds and the
context carries the fields recovered from the credential scope. -/
theorem C7_parse_characterization_witness :
    parseAuth reqC7w = .ok (some
      ⟨(splitByte 47 (lookupLast (authDict ahC7w) (str2b "Credential"))).getD 0 [],
       (fromHex (lookupLast (authDict ahC7w) (str2b "Signature"))).getD [],
       (splitByte 47 (lookupLast (authDict ahC7w) (str2b "Credential"))).getD 1 [],
       (splitByte 47 (lookupLast (authDict ahC7w) (str2b "Credential"))).getD 2 [],
       lookupLast (authDict ahC7w) (str2b "SignedHeaders"),
       getFirst reqC7w.headers (str2b "x-amz-date"), reqC7w⟩) :=
  ((C7_parse_characterization reqC7w).2 ahC7w (by decide) (by decide) (by decide)
    (by decide) (by decide)).2 (by decide) (by decide) (by decide) (by decide) (by decide)

/-! ### C3: the token codec round-trip and fail-closed behavior -/

theorem hexDigitChar_hexVal : ∀ n, n < 16 → hexVal (hexDigitChar n) = some n := by decide

theorem hexDigitChar_not_ws (n : Nat) : isPyWs (hexDigitChar n) = false := by
  have h : 48 ≤ hexDigitChar n := by
    unfold hexDigitChar
    split <;> omega
  simp only [isPyWs, Bool.or_eq_false_iff, decide_eq_false_iff_not]
  omega

theorem hexEncode_cons (b : Nat) (r : Bytes) :
    hexEncode (b :: r) = hexDigitChar (b / 16) :: hexDigitChar (b % 16) :: hexEncode r := rfl

theorem filter_hexEncode (raw : Bytes) :
    (hexEncode raw).filter (fun c => !isPyWs c) = hexEncode raw := by
  induction raw with
  | nil => rfl
  | cons b r ih =>
    rw [hexEncode_cons]
    simp [List.filter_cons, hexDigitChar_not_ws, ih]

theorem fromHexGo_hexEncode (raw : Bytes) (h : ∀ c ∈ raw, c < 256) :
    fromHexGo (hexEncode raw) = some raw := by
  induction raw with
  | nil => rfl
  | cons b r ih =>
    have hb := h b (by simp)
    rw [hexEncode_cons]
    unfold fromHexGo
    rw [hexDigitChar_hexVal (b / 16) (by omega), hexDigitChar_hexVal (b % 16) (by omega),
      ih (fun c hc => h c (by simp [hc]))]
    simp
    omega

theorem fromHex_hexEncode (raw : Bytes) (h : ∀ c ∈ raw, c < 256) :
    fromHex (hexEncode raw) = some raw := by
  unfold fromHex
  rw [filter_hexEncode, fromHexGo_hexEncode raw h]

theorem readField_packField (b rest : Bytes) (h : b.length < 4294967296) :
    readField (packField b ++ rest) = some (b, rest) := by
  show readField (b.length / 16777216 % 256 :: b.length / 65536 % 256 :: b.length / 256 % 256
      :: b.length % 256 :: (b ++ rest)) = some (b, rest)
  unfold readField
  dsimp only
  have hn : b.length / 16777216 % 256 * 16777216 + b.length / 65536 % 256 * 65536
      + b.length / 256 % 256 * 256 + b.length % 256 = b.length := by omega
  rw [hn]
  rw [if_pos (by simp)]
  rw [List.take_left, List.drop_left]

theorem readOptField_packOptField (o : Option Bytes) (rest : Bytes)
    (h : ∀ b, o = some b → b.length < 4294967296) :
    readOptField (packOptField o ++ rest) = some (o, rest) := by
  cases o with
  | none => rfl
  | some b =>
    show readOptField (1 :: (packField b ++ rest)) = some (some b, rest)
    unfold readOptField
    dsimp only
    rw [readField_packField b rest (h b rfl)]
    rfl

theorem parsePayload_packPayload (t : UploadToken)
    (hb : t.bucket.length < 4294967296) (ho : t.obj.length < 4294967296)
    (hk : ∀ b, t.keyId = some b → b.length < 4294967296) :
    parsePayload (packPayload t) = some t := by
  unfold parsePayload packPayload
  rw [readField_packField _ _ hb]
  dsimp only
  rw [readField_packField _ _ ho]
  dsimp only
  rw [show packOptField t.keyId = packOptField t.keyId ++ [] by simp]
  rw [readOptField_packOptField _ _ hk]

theorem jwtDecode_jwtEncode (t : UploadToken) (s : Bytes)
    (hlt : ∀ c ∈ packPayload t, c < 256)
    (hb : t.bucket.length < 4294967296) (ho : t.obj.length < 4294967296)
    (hk : ∀ b, t.keyId = some b → b.length < 4294967296) :
    jwtDecode (jwtEncode t s) s = some t := by
  unfold jwtDecode jwtEncode
  have hraw : ∀ c ∈ packPayload t ++ hmacSha256 s (packPayload t), c < 256 := by
    intro c hc
    rcases List.mem_append.mp hc with h | h
    · exact hlt c h
    · exact hmacSha256_lt _ _ c h
  rw [fromHex_hexEncode _ hraw]
  dsimp only
  have hlen : (packPayload t ++ hmacSha256 s (packPayload t)).length
      = (packPayload t).length + 32 := by simp [hmacSha256_length]
  rw [if_neg (by rw [hlen]; omega)]
  have h1 : (packPayload t ++ hmacSha256 s (packPayload t)).length - 32
      = (packPayload t).length := by rw [hlen]; omega
  rw [h1, List.take_left, List.drop_left, bne_self_eq_false]
  rw [if_neg (by simp)]
  exact parsePayload_packPayload t hb ho hk

theorem jwtDecode_jwtEncode_wrong_secret (t : UploadToken) (s s' : Bytes)
    (hlt : ∀ c ∈ packPayload t, c < 256)
    (hne : hmacSha256 s' (packPayload t) ≠ hmacSha256 s (packPayload t)) :
    jwtDecode (jwtEncode t s) s' = none := by
  unfold jwtDecode jwtEncode
  have hraw : ∀ c ∈ packPayload t ++ hmacSha256 s (packPayload t), c < 256 := by
    intro c hc
    rcases List.mem_append.mp hc with h | h
    · exact hlt c h
    · exact hmacSha256_lt _ _ c h
  rw [fromHex_hexEncode _ hraw]
  dsimp only
  have hlen : (packPayload t ++ hmacSha256 s (packPayload t)).length
      = (packPayload t).length + 32 := by simp [hmacSha256_length]
  rw [if_neg (by rw [hlen]; omega)]
  have h1 : (packPayload t ++ hmacSha256 s (packPayload t)).length - 32
      = (packPayload t).length := by rw [hlen]; omega
  rw [h1, List.take_left, List.drop_left]
  rw [if_pos (bne_iff_ne.mpr (fun h => hne h.symm))]

theorem jwtDecode_undecodable (tok s : Bytes) (h : fromHex tok = none) :
    jwtDecode tok s = none := by
  unfold jwtDecode
  rw [h]

theorem jwtDecode_truncated (tok s raw : Bytes) (h : fromHex tok = some raw)
    (hlen : raw.length < 32) : jwtDecode tok s = none := by
  unfold jwtDecode
  rw [h]
  dsimp only
  rw [if_pos hlen]

theorem jwtDecode_tag_mismatch (tok s raw : Bytes) (h : fromHex tok = some raw)
    (hlen : 32 ≤ raw.length)
    (hne : raw.drop (raw.length - 32) ≠ hmacSha256 s (raw.take (raw.length - 32))) :
    jwtDecode tok s = none := by
  unfold jwtDecode
  rw [h]
  dsimp only
  rw [if_neg (by omega), if_pos (bne_iff_ne.mpr hne)]

/-- C3: `redeem(issue(bucket, key, identity, secret), secret)` returns exactly
the issued triple, and `redeem` fails closed: an undecodable token, a
truncated one, or a tag mismatch (in particular redeeming under a different
secret whose recomputed tag differs) yields invalid, and the `Option` result
type makes a partially-populated result impossible.  The codec is modelled
from spec §4.4 (`jwt_msgpack.py` is not under `src/`); the side conditions
make the byte-level and collision-freedom assumptions explicit. -/
theorem C3_token_roundtrip_fail_closed (t : UploadToken) (s : Bytes)
    (hlt : ∀ c ∈ packPayload t, c < 256)
    (hb : t.bucket.length < 4294967296) (ho : t.obj.length < 4294967296)
    (hk : ∀ b, t.keyId = some b → b.length < 4294967296) :
    jwtDecode (jwtEncode t s) s = some t
    ∧ (∀ s', hmacSha256 s' (packPayload t) ≠ hmacSha256 s (packPayload t) →
        jwtDecode (jwtEncode t s) s' = none)
    ∧ (∀ tok sec : Bytes, fromHex tok = none → jwtDecode tok sec = none)
    ∧ (∀ tok sec raw : Bytes, fromHex tok = some raw → raw.length < 32 →
        jwtDecode tok sec = none)
    ∧ (∀ tok sec raw : Bytes, fromHex tok = some raw → 32 ≤ raw.length →
        raw.drop (raw.length - 32) ≠ hmacSha256 sec (raw.take (raw.length - 32)) →
        jwtDecode tok sec = none) :=
  ⟨jwtDecode_jwtEncode t s hlt hb ho hk,
   fun s' hne => jwtDecode_jwtEncode_wrong_secret t s s' hlt hne,
   fun tok sec h => jwtDecode_undecodable tok sec h,
   fun tok sec raw h hl => jwtDecode_truncated tok sec raw h hl,
   fun tok sec raw h hl hne => jwtDecode_tag_mismatch tok sec raw h hl hne⟩

def t3w : UploadToken := ⟨str2b "b", str2b "o", some (str2b "AKID")⟩

def tagOtherLit : Bytes := hexLit "d6e8b98caca759b9d8e4a2a68798d90c77e72b0d1afe640467b2f0517a8d29db"

def tag123Lit : Bytes := hexLit "b467014338e6500abc8acd992b01a56e6007ae73cbf962b3b7a571aac37dd536"

theorem tagOther_eq : hmacSha256 (str2b "other") (packPayload t3w) = tagOtherLit := by decide

theorem tag123_eq : hmacSha256 (str2b "123456") (packPayload t3w) = tag123Lit := by decide

/-- Witness for C3 at a concrete token and secrets. -/
theorem C3_token_roundtrip_fail_closed_witness :
    (∀ c ∈ packPayload t3w, c < 256)
    ∧ jwtDecode (jwtEncode t3w (str2b "123456")) (str2b "123456") = some t3w
    ∧ jwtDecode (jwtEncode t3w (str2b "123456")) (str2b "other") = none := by
  have hk : ∀ b, t3w.keyId = some b → b.length < 4294967296 := by
    intro b hb
    rw [show t3w.keyId = some (str2b "AKID") from rfl] at hb
    injection hb with h
    subst h
    decide
  have main := C3_token_roundtrip_fail_closed t3w (str2b "123456") (by decide) (by decide)
    (by decide) hk
  refine ⟨by decide, main.1, main.2.1 (str2b "other") ?_⟩
  rw [tagOther_eq, tag123_eq]
  decide

/-! ### Trace lemmas for the router -/

theorem authRun_trace (be : Backend) (req : Request) (tgt : Option Target) :
    (authRun be req tgt).2 = [] ∨ ∃ kid, (authRun be req tgt).2 = [.accessKey kid tgt] := by
  unfold authRun
  dsimp only
  repeat' split
  all_goals first
  | (left; rfl)
  | (right; exact ⟨_, rfl⟩)

theorem authRun_events (be : Backend) (req : Request) (tgt : Option Target) :
    ∀ c ∈ (authRun be req tgt).2, ∃ kid, c = .accessKey kid tgt := by
  rcases authRun_trace be req tgt with h | ⟨kid, h⟩ <;> rw [h]
  · intro c hc
    simp at hc
  · intro c hc
    simp at hc
    exact ⟨kid, hc⟩

/-- The repository's protocol-level error classes: the error taxonomy of spec
§7 that maps to protocol error responses.  Python built-ins such as
`AssertionError` escape as internal server errors instead. -/
def isProtocolError : PyErr → Bool
  | .accessDenied => true
  | .invalidAccessKeyId => true
  | .tokenInvalid => true
  | _ => false

/-- C9 (amended): a POST object request whose query has neither `uploads` nor
`uploadId` is rejected before any backend call (the trace is empty) — but via
`print(query); assert False` (`server.py:101-103`), i.e. an `AssertionError`
surfacing as an internal server error, not a `MalformedMultipartRequest`
protocol error response. -/
theorem C9_neither_param_assert (be : Backend) (req : Request) (b o : Bytes)
    (q : List (Bytes × Bytes)) (hq : parseQuery req.rawQuery = .ok q)
    (h1 : hasKey q (str2b "uploads") = false) (h2 : hasKey q (str2b "uploadId") = false) :
    createMultipartRun be req b o = (.error .assertionError, []) := by
  unfold createMultipartRun
  rw [hq]
  dsimp only
  rw [h1, h2]
  rfl

def reqC9 : Request :=
  { method := str2b "POST", path := str2b "/b/o", rawQuery := str2b "a=b",
    headers := [], body := [] }

/-- Counterexample to C9 as stated: on the concrete POST with query `a=b` the
router raises the built-in `AssertionError`, which is not one of the
repository's protocol-level error classes. -/
theorem C9_counterexample :
    createMultipartRun beC1 reqC9 (str2b "b") (str2b "o") = (.error .assertionError, [])
    ∧ isProtocolError .assertionError = false := ⟨by decide, rfl⟩

/-- Witness for C9 at the concrete request. -/
theorem C9_neither_param_assert_witness :
    parseQuery reqC9.rawQuery = .ok [(str2b "a", str2b "b")]
    ∧ hasKey [(str2b "a", str2b "b")] (str2b "uploads") = false
    ∧ hasKey [(str2b "a", str2b "b")] (str2b "uploadId") = false
    ∧ createMultipartRun bePub reqC9 (str2b "b") (str2b "o") = (.error .assertionError, []) :=
  ⟨by decide, by decide, by decide,
   C9_neither_param_assert bePub reqC9 (str2b "b") (str2b "o") [(str2b "a", str2b "b")]
     (by decide) (by decide) (by decide)⟩

/-- C10: when the query contains `uploads` (in particular when it contains
both `uploads` and `uploadId`), `_create_multipart` takes the initiate branch:
any successful outcome is an `InitiateMultipartUploadResult` and the backend
`finish_multipart_upload` is never called; conversely a `finish` call in the
trace implies `uploadId` was present and `uploads` absent. -/
theorem C10_uploads_precedence (be : Backend) (req : Request) (b o : Bytes)
    (q : List (Bytes × Bytes)) (hq : parseQuery req.rawQuery = .ok q) :
    (hasKey q (str2b "uploads") = true →
      (∀ out, (createMultipartRun be req b o).1 = .ok out →
        ∃ bn onn uid, out = .xmlInitiateMultipartUpload bn onn uid)
      ∧ (∀ bn onn, BCall.finishMultipartUpload bn onn ∉ (createMultipartRun be req b o).2))
    ∧ (∀ bn onn, BCall.finishMultipartUpload bn onn ∈ (createMultipartRun be req b o).2 →
        hasKey q (str2b "uploadId") = true ∧ hasKey q (str2b "uploads") = false) := by
  have hauth := authRun_events be req (some (.bucket b))
  unfold createMultipartRun
  rw [hq]
  dsimp only
  by_cases hu : hasKey q (str2b "uploads") = true
  · rw [hu]
    simp only [Bool.not_true, Bool.false_and, Bool.false_eq_true, if_false]
    rcases har : authRun be req (some (.bucket b)) with ⟨r, t⟩
    have ht : ∀ c ∈ t, ∃ kid, c = BCall.accessKey kid (some (.bucket b)) := by
      rw [har] at hauth
      exact hauth
    rcases r with e | kid
    · dsimp only
      constructor
      · intro _
        constructor
        · intro out hout
          simp at hout
        · intro bn onn hmem
          obtain ⟨kid', hc⟩ := ht _ hmem
          exact BCall.noConfusion hc
      · intro bn onn hmem
        obtain ⟨kid', hc⟩ := ht _ hmem
        exact BCall.noConfusion hc
    · dsimp only
      rcases hcr : be.createMultipartUpload b o with e | obj
      · dsimp only
        constructor
        · intro _
          constructor
          · intro out hout
            simp at hout
          · intro bn onn hmem
            rcases List.mem_append.mp hmem with hm | hm
            · obtain ⟨kid', hc⟩ := ht _ hm
              exact BCall.noConfusion hc
            · simp at hm
        · intro bn onn hmem
          rcases List.mem_append.mp hmem with hm | hm
          · obtain ⟨kid', hc⟩ := ht _ hm
            exact BCall.noConfusion hc
          · simp at hm
      · dsimp only
        constructor
        · intro _
          constructor
          · intro out hout
            exact ⟨_, _, _, (Except.ok.inj hout).symm⟩
          · intro bn onn hmem
            rcases List.mem_append.mp hmem with hm | hm
            · obtain ⟨kid', hc⟩ := ht _ hm
              exact BCall.noConfusion hc
            · simp at hm
        · intro bn onn hmem
          rcases List.mem_append.mp hmem with hm | hm
          · obtain ⟨kid', hc⟩ := ht _ hm
            exact BCall.noConfusion hc
          · simp at hm
  · constructor
    · intro hu'
      exact absurd hu' hu
    · intro bn onn hmem0
      by_cases hid : hasKey q (str2b "uploadId") = true
      · exact ⟨hid, by simpa using hu⟩
      · have h1 : hasKey q (str2b "uploads") = false := by simpa using hu
        have h2 : hasKey q (str2b "uploadId") = false := by simpa using hid
        rw [h1, h2] at hmem0
        simp at hmem0

/-! ### C4: token-field mismatch gates the part write -/

/-- Backend events that open or feed a write stream. -/
def isStreamEvent : BCall → Bool
  | .writeObject _ _ => true
  | .writeObjectMultipart _ _ _ => true
  | .sinkWrite _ _ => true
  | _ => false

/-- C4 (amended): on a PUT whose query has `uploadId`, if the redeemed
token's bucket, object key, or identity differs from the path bucket, path
key, or authenticated identity, the request fails (by assertion, surfacing as
a server error rather than an authentication error) and no backend write
stream is opened or written: the trace contains no stream event. -/
theorem C4_mismatch_rejected_before_stream (md5 : Bytes → Bytes) (be : Backend) (req : Request)
    (b o : Bytes) (q : List (Bytes × Bytes)) (info : UploadToken)
    (hq : parseQuery req.rawQuery = .ok q)
    (hup : hasKey q (str2b "uploadId") = true)
    (hdec : jwtDecode (lookupLast q (str2b "uploadId")) (str2b "123456") = some info)
    (hmis : info.bucket ≠ b ∨ info.obj ≠ o
      ∨ (∀ kid, (authRun be req (some (.bucket b))).1 = .ok kid → info.keyId ≠ kid)) :
    (∃ e, (writeObjectRun md5 be req b o).1 = .error e)
    ∧ ∀ c ∈ (writeObjectRun md5 be req b o).2, isStreamEvent c = false := by
  have hauth := authRun_events be req (some (.bucket b))
  unfold writeObjectRun
  rw [hq]
  dsimp only
  rw [hup]
  rw [if_pos rfl]
  by_cases hpn : (hasKey q (str2b "partNumber") && isDigits (lookupLast q (str2b "partNumber"))) = true
  · rw [hpn]
    rw [if_neg (by simp)]
    rw [hdec]
    dsimp only
    cases hb1 : info.bucket != b with
    | true =>
      rw [if_pos rfl]
      exact ⟨⟨.assertionError, rfl⟩, by intro c hc; simp at hc⟩
    | false =>
      rw [if_neg (by simp)]
      cases hb2 : info.obj != o with
      | true =>
        rw [if_pos rfl]
        exact ⟨⟨.assertionError, rfl⟩, by intro c hc; simp at hc⟩
      | false =>
        rw [if_neg (by simp)]
        dsimp only
        rcases har : authRun be req (some (.bucket b)) with ⟨r, t⟩
        rw [har] at hauth
        rcases r with e | kid
        · refine ⟨⟨e, rfl⟩, ?_⟩
          intro c hc
          obtain ⟨kid', hc'⟩ := hauth c hc
          rw [hc']
          rfl
        · have hkid : info.keyId ≠ kid := by
            rcases hmis with h | h | h
            · exact absurd (bne_eq_false_iff_eq.mp hb1) h
            · exact absurd (bne_eq_false_iff_eq.mp hb2) h
            · exact h kid (by rw [har])
          dsimp only
          rw [if_pos (bne_iff_ne.mpr hkid)]
          refine ⟨⟨.assertionError, rfl⟩, ?_⟩
          intro c hc
          obtain ⟨kid', hc'⟩ := hauth c hc
          rw [hc']
          rfl
  · have hpn0 : (hasKey q (str2b "partNumber") && isDigits (lookupLast q (str2b "partNumber"))) = false := by
      rwa [Bool.eq_false_iff]
    rw [hpn0]
    rw [if_pos (show (!false) = true from rfl)]
    exact ⟨⟨.assertionError, rfl⟩, by intro c hc; simp at hc⟩

def t4 : UploadToken := ⟨str2b "other", str2b "o", some (str2b "AKID")⟩

/-- The issued token for `t4` under the hard-coded secret, as a literal. -/
def tok4 : Bytes := str2b "000000056f74686572000000016f0100000004414b49443b0d15a626e2f36154053061d828e30b9cfafe6e64dc321a5640dec2977a694e"

theorem tok4_eq : jwtEncode t4 (str2b "123456") = tok4 := by decide

def reqC4 : Request :=
  { method := str2b "PUT", path := str2b "/b/o",
    rawQuery := str2b "partNumber=1&uploadId=" ++ tok4,
    headers := [], body := [] }

/-- Counterexample to C4 as stated: at a concrete part-upload request whose
token names bucket `other` while the path says `b`, the request is rejected
by `assert upload_info["bucket"] == bucket_name` (`server.py:74`) — an
`AssertionError`, which is not an authentication error as the claim requires
(the gating itself does hold: the trace is empty). -/
theorem C4_counterexample :
    writeObjectRun (fun x => x) beC1 reqC4 (str2b "b") (str2b "o")
      = (.error .assertionError, [])
    ∧ isAuthError .assertionError = false := ⟨by decide, rfl⟩

def q4 : List (Bytes × Bytes) :=
  [(str2b "partNumber", str2b "1"), (str2b "uploadId", tok4)]

/-- Witness for C4 at the concrete mismatching request. -/
theorem C4_mismatch_rejected_before_stream_witness :
    parseQuery reqC4.rawQuery = .ok q4
    ∧ hasKey q4 (str2b "uploadId") = true
    ∧ jwtDecode (lookupLast q4 (str2b "uploadId")) (str2b "123456") = some t4
    ∧ t4.bucket ≠ str2b "b"
    ∧ ((∃ e, (writeObjectRun (fun x => x) bePub reqC4 (str2b "b") (str2b "o")).1 = .error e)
       ∧ ∀ c ∈ (writeObjectRun (fun x => x) bePub reqC4 (str2b "b") (str2b "o")).2,
           isStreamEvent c = false) := by
  have hd : jwtDecode (lookupLast q4 (str2b "uploadId")) (str2b "123456") = some t4 := by
    decide
  exact ⟨by decide, by decide, hd, by decide,
    C4_mismatch_rejected_before_stream (fun x => x) bePub reqC4 (str2b "b") (str2b "o") q4 t4
      (by decide) (by decide) hd (Or.inl (by decide))⟩

/-! ### C5: the write path forwards the body exactly and reports the digest -/

/-- The accumulated digest state of a (possibly decorated) write sink. -/
def wsAcc : WStream → Bytes
  | .plain _ => []
  | .etag _ a => a

/-- The sequence of pushes (chunks and the end-of-data marker) to backend sinks. -/
def sinkPushes : List BCall → List (Option Bytes)
  | [] => []
  | .sinkWrite _ ch :: tr => ch :: sinkPushes tr
  | _ :: tr => sinkPushes tr

/-- The sequence of data chunks pushed to backend sinks. -/
def sinkChunks : List BCall → List Bytes
  | [] => []
  | .sinkWrite _ (some ch) :: tr => ch :: sinkChunks tr
  | _ :: tr => sinkChunks tr

theorem sinkPushes_append (a b : List BCall) :
    sinkPushes (a ++ b) = sinkPushes a ++ sinkPushes b := by
  induction a with
  | nil => rfl
  | cons c rest ih =>
    cases c <;> simp [sinkPushes, ih]

theorem sinkChunks_append (a b : List BCall) :
    sinkChunks (a ++ b) = sinkChunks a ++ sinkChunks b := by
  induction a with
  | nil => rfl
  | cons c rest ih =>
    rcases c with _ | _ | _ | _ | _ | _ | _ | _ | ⟨s, _ | ch⟩ <;> simp [sinkChunks, ih]

theorem sinkPushes_map (sink : Nat) (L : List Bytes) :
    sinkPushes (L.map (fun c => BCall.sinkWrite sink (some c))) = L.map some := by
  induction L with
  | nil => rfl
  | cons c rest ih => simp [sinkPushes, ih]

theorem sinkChunks_map (sink : Nat) (L : List Bytes) :
    sinkChunks (L.map (fun c => BCall.sinkWrite sink (some c))) = L := by
  induction L with
  | nil => rfl
  | cons c rest ih => simp [sinkChunks, ih]

theorem sinkPushes_of_accessKey (t : List BCall) (tgt : Option Target)
    (h : ∀ c ∈ t, ∃ kid, c = .accessKey kid tgt) : sinkPushes t = [] := by
  induction t with
  | nil => rfl
  | cons c rest ih =>
    obtain ⟨kid, hc⟩ := h c (by simp)
    subst hc
    simp [sinkPushes, ih (fun x hx => h x (by simp [hx]))]

theorem sinkChunks_of_accessKey (t : List BCall) (tgt : Option Target)
    (h : ∀ c ∈ t, ∃ kid, c = .accessKey kid tgt) : sinkChunks t = [] := by
  induction t with
  | nil => rfl
  | cons c rest ih =>
    obtain ⟨kid, hc⟩ := h c (by simp)
    subst hc
    simp [sinkChunks, ih (fun x hx => h x (by simp [hx]))]

theorem flatten_filter_ne (l : List Bytes) : (l.filter (fun c => c != [])).flatten = l.flatten := by
  induction l with
  | nil => rfl
  | cons c rest ih =>
    by_cases hc : (c != []) = true
    · simp [List.filter_cons, hc, ih]
    · have hc0 : c = [] := by simpa using hc
      simp [List.filter_cons, hc, hc0, ih]

theorem feedBody_spec (sink : Nat) (body : List Bytes) (acc : Bytes) :
    feedBody sink body acc
      = (acc ++ (body.filter (fun c => c != [])).flatten,
         (body.filter (fun c => c != [])).map (fun c => BCall.sinkWrite sink (some c))) := by
  induction body generalizing acc with
  | nil => simp [feedBody]
  | cons c rest ih =>
    rw [show feedBody sink (c :: rest) acc = (if c != [] then
        ((feedBody sink rest (acc ++ c)).1,
          .sinkWrite sink (some c) :: (feedBody sink rest (acc ++ c)).2)
        else feedBody sink rest acc) from rfl]
    by_cases hc : (c != []) = true
    · rw [if_pos hc, ih]
      simp [List.filter_cons, hc, List.append_assoc]
    · rw [if_neg (by simpa using hc), ih]
      simp [List.filter_cons, hc]

theorem writeSection_spec (md5 : Bytes → Bytes) (s0 : WStream) (body : List Bytes)
    (hfresh : wsAcc s0 = []) :
    writeSection md5 s0 body
      = (⟨200, [(str2b "ETag", hexEncode (md5 body.flatten))]⟩,
         (body.filter (fun c => c != [])).map (fun c => BCall.sinkWrite (innerSink s0) (some c))
           ++ [.sinkWrite (innerSink s0) none]) := by
  cases s0 with
  | plain i =>
    unfold writeSection wrapIfPlain
    dsimp only [innerSink]
    rw [feedBody_spec]
    simp [flatten_filter_ne]
  | etag i a =>
    have ha : a = [] := hfresh
    subst ha
    unfold writeSection wrapIfPlain
    dsimp only [innerSink]
    rw [feedBody_spec]
    simp [flatten_filter_ne]

/-- C5: every write-object request (single-part or multipart part) that
completes successfully forwards exactly the request body to the backend sink:
the pushes are the non-empty body chunks in order followed by exactly one
end-of-data marker, their concatenation is the body, and the 200 response's
ETag is the hex digest of the full body.  The digest function is a parameter
(`etag_stream.py` is spec-modelled); the freshness hypotheses say the backend
hands out streams with empty digest state. -/
theorem C5_write_exact (md5 : Bytes → Bytes) (be : Backend) (req : Request)
    (b o : Bytes) (resp : Response) (tr : List BCall)
    (hfresh : ∀ bn onn s, be.writeObject bn onn = .ok s → wsAcc s = [])
    (hfreshM : ∀ bn onn pn s, be.writeObjectMultipart bn onn pn = .ok s → wsAcc s = [])
    (hrun : writeObjectRun md5 be req b o = (.ok resp, tr)) :
    sinkPushes tr = (req.body.filter (fun c => c != [])).map some ++ [none]
    ∧ (sinkChunks tr).flatten = req.body.flatten
    ∧ resp = ⟨200, [(str2b "ETag", hexEncode (md5 req.body.flatten))]⟩ := by
  have hauth := authRun_events be req (some (.bucket b))
  unfold writeObjectRun at hrun
  rcases hq : parseQuery req.rawQuery with e | q
  · rw [hq] at hrun
    simp at hrun
  · rw [hq] at hrun
    dsimp only at hrun
    by_cases hKey : hasKey q (str2b "uploadId") = true
    · rw [hKey, if_pos rfl] at hrun
      by_cases hpn : (hasKey q (str2b "partNumber")
          && isDigits (lookupLast q (str2b "partNumber"))) = true
      · rw [hpn, if_neg (by simp)] at hrun
        rcases hdec : jwtDecode (lookupLast q (str2b "uploadId")) (str2b "123456") with _ | info
        · rw [hdec] at hrun
          simp at hrun
        · rw [hdec] at hrun
          dsimp only at hrun
          cases hb1 : info.bucket != b with
          | true =>
            rw [hb1, if_pos rfl] at hrun
            simp at hrun
          | false =>
            rw [hb1, if_neg (by simp)] at hrun
            cases hb2 : info.obj != o with
            | true =>
              rw [hb2, if_pos rfl] at hrun
              simp at hrun
            | false =>
              rw [hb2, if_neg (by simp)] at hrun
              dsimp only at hrun
              rcases har : authRun be req (some (.bucket b)) with ⟨r, t⟩
              rw [har] at hrun hauth
              dsimp only at hrun hauth
              rcases r with e | kid
              · simp at hrun
              · dsimp only at hrun
                cases hb3 : info.keyId != kid with
                | true =>
                  rw [hb3, if_pos rfl] at hrun
                  simp at hrun
                | false =>
                  rw [hb3, if_neg (by simp)] at hrun
                  dsimp only at hrun
                  rcases hso : be.writeObjectMultipart b o
                      (digitsToNat (lookupLast q (str2b "partNumber"))) with e | sk
                  · rw [hso] at hrun
                    simp at hrun
                  · rw [hso] at hrun
                    dsimp only at hrun
                    rw [writeSection_spec md5 sk req.body (hfreshM _ _ _ _ hso)] at hrun
                    injection hrun with hA hB
                    injection hA with hA
                    subst hB
                    subst hA
                    refine ⟨?_, ?_, rfl⟩
                    · rw [sinkPushes_append, sinkPushes_append,
                        sinkPushes_of_accessKey t _ hauth, sinkPushes_append, sinkPushes_map]
                      rfl
                    · rw [sinkChunks_append, sinkChunks_append,
                        sinkChunks_of_accessKey t _ hauth, sinkChunks_append, sinkChunks_map]
                      simp [sinkChunks, flatten_filter_ne]
      · rw [Bool.eq_false_iff.mpr hpn, if_pos (show (!false) = true from rfl)] at hrun
        simp at hrun
    · rw [Bool.eq_false_iff.mpr hKey, if_neg (by simp)] at hrun
      dsimp only at hrun
      rcases har : authRun be req (some (.bucket b)) with ⟨r, t⟩
      rw [har] at hrun hauth
      dsimp only at hrun hauth
      rcases r with e | kid
      · simp at hrun
      · dsimp only at hrun
        rcases hso : be.writeObject b o with e | sk
        · rw [hso] at hrun
          simp at hrun
        · rw [hso] at hrun
          dsimp only at hrun
          rw [writeSection_spec md5 sk req.body (hfresh _ _ _ hso)] at hrun
          injection hrun with hA hB
          injection hA with hA
          subst hB
          subst hA
          refine ⟨?_, ?_, rfl⟩
          · rw [sinkPushes_append, sinkPushes_append,
              sinkPushes_of_accessKey t _ hauth, sinkPushes_append, sinkPushes_map]
            rfl
          · rw [sinkChunks_append, sinkChunks_append,
              sinkChunks_of_accessKey t _ hauth, sinkChunks_append, sinkChunks_map]
            simp [sinkChunks, flatten_filter_ne]

def reqC5 : Request :=
  { method := str2b "PUT", path := str2b "/b/o",
    rawQuery := str2b "a=b",
    headers := [(str2b "authorization", authHeaderC1),
                (str2b "host", str2b "s3server.test"),
                (str2b "x-amz-date", str2b "20240101T000000Z"),
                (str2b "x-amz-content-sha256", str2b "UNSIGNED-PAYLOAD")],
    body := [str2b "ab", [], str2b "cd"] }

def respC5 : Response := ⟨200, [(str2b "ETag", str2b "61626364")]⟩

def trC5 : List BCall :=
  [.accessKey (some (str2b "AKID")) (some (.bucket (str2b "b"))),
   .writeObject (str2b "b") (str2b "o"),
   .sinkWrite 0 (some (str2b "ab")), .sinkWrite 0 (some (str2b "cd")), .sinkWrite 0 none]

/-- Witness for C5 at a concrete singlepart upload with body
`[b"ab", b"", b"cd"]` and the identity digest function. -/
theorem C5_write_exact_witness :
    writeObjectRun (fun x => x) beC1 reqC5 (str2b "b") (str2b "o") = (.ok respC5, trC5)
    ∧ sinkPushes trC5 = (reqC5.body.filter (fun c => c != [])).map some ++ [none]
    ∧ (sinkChunks trC5).flatten = reqC5.body.flatten
    ∧ respC5 = ⟨200, [(str2b "ETag", hexEncode ((fun x => x) reqC5.body.flatten))]⟩ := by
  have hfr : ∀ bn onn s, beC1.writeObject bn onn = .ok s → wsAcc s = [] := by
    intro bn onn s hh
    have hh' : Except.ok (WStream.plain 0) = Except.ok s := hh
    injection hh' with h2
    subst h2
    rfl
  have hfrM : ∀ bn onn pn s, beC1.writeObjectMultipart bn onn pn = .ok s → wsAcc s = [] := by
    intro bn onn pn s hh
    have hh' : Except.ok (WStream.plain 0) = Except.ok s := hh
    injection hh' with h2
    subst h2
    rfl
  have h : writeObjectRun (fun x => x) beC1 reqC5 (str2b "b") (str2b "o")
      = (.ok respC5, trC5) := by decide
  have main := C5_write_exact (fun x => x) beC1 reqC5 (str2b "b") (str2b "o") respC5 trC5
    hfr hfrM h
  exact ⟨h, main.1, main.2.1, main.2.2⟩

def reqC10 : Request :=
  { method := str2b "POST", path := str2b "/b/o",
    rawQuery := str2b "uploads=1&uploadId=x", headers := [], body := [] }

def q10 : List (Bytes × Bytes) := [(str2b "uploads", str2b "1"), (str2b "uploadId", str2b "x")]

/-- Witness for C10 at a concrete query containing both parameters. -/
theorem C10_uploads_precedence_witness :
    parseQuery reqC10.rawQuery = .ok q10
    ∧ hasKey q10 (str2b "uploads") = true
    ∧ hasKey q10 (str2b "uploadId") = true
    ∧ ((∀ out, (createMultipartRun beC1 reqC10 (str2b "b") (str2b "o")).1 = .ok out →
         ∃ bn onn uid, out = .xmlInitiateMultipartUpload bn onn uid)
       ∧ (∀ bn onn, BCall.finishMultipartUpload bn onn
           ∉ (createMultipartRun beC1 reqC10 (str2b "b") (str2b "o")).2)) :=
  ⟨by decide, by decide, by decide,
   (C10_uploads_precedence beC1 reqC10 (str2b "b") (str2b "o") q10 (by decide)).1 (by decide)⟩
